import Mathlib

/-!
Verification of the sdpp synchronization tool (src/sdpp.py).

The Python module keeps a Paperpile directory ("source") and a Sony/Box
directory ("mirror") in agreement.  Its core is embedded here shallowly:

* Python strings and paths are `List Char` (`Str` below); `str.replace`
  with a single-character needle is a character-wise `List.map`.
* `modtime` values (`st_mtime`) are natural numbers; only comparisons with
  a fixed 10-second slack matter.
* The tinyDB store is a `List DBElem` of documents.  Searching returns a
  fresh list of matching documents; mutating a returned document does not
  write the store — writes happen only through explicit insert calls, of
  which the sync paths have none, so the store travels through unchanged.
* Fallible operating-system calls (`shutil.copy2`, `os.rename`) are modelled
  with explicit success oracles; a raised Python exception is an
  `Option PyError` that aborts the enclosing loop, exactly as an uncaught
  exception propagates out of a `for` loop.
* The recursive directory listing (`rscandir`) is, per the wider design, an
  external collaborator; the bootstrap takes its yielded entry list as input.
-/

namespace SDPP

/-- Python strings are modelled as lists of characters. -/
abbrev Str := List Char

/-- Python exceptions that the embedded code paths can raise. -/
inductive PyError where
  | TypeError
  | NameError
  | IsADirectoryError
  | FileNotFoundError
  | OSErrorCopy
deriving DecidableEq, Repr

/-- The forbidden-character set from sdpp.py: quote, angle brackets, space,
comma, semicolon, colon, pipe, asterisk, question mark. -/
def forbidden_chars : Str := ("\"<> ,;:|*?").data

/-- One pass of Python `sanitised.replace(char, underscore)`: with a
single-character needle this replaces every occurrence character-wise. -/
def replaceAll (s : Str) (c : Char) : Str :=
  s.map (fun d => if d = c then '_' else d)

/-- Embedding of `to_sony_filename`: fold `str.replace(char, underscore)`
over the forbidden characters, in order. -/
def to_sony_filename (fn : Str) : Str :=
  forbidden_chars.foldl replaceAll fn

/-- Character-wise description of the sanitiser: forbidden characters become
an underscore, everything else is unchanged. -/
def sanChar (d : Char) : Char :=
  if d ∈ forbidden_chars then '_' else d

theorem foldl_replaceAll_eq (cs : List Char) :
    ∀ fn : Str, cs.foldl replaceAll fn
      = fn.map (fun d => if d ∈ cs then '_' else d) := by
  induction cs with
  | nil =>
      intro fn
      simp [List.foldl]
  | cons c cs ih =>
      intro fn
      rw [List.foldl_cons, ih (replaceAll fn c)]
      simp only [replaceAll, List.map_map]
      congr 1
      funext d
      by_cases hdc : d = c
      · subst hdc
        simp [Function.comp, List.mem_cons]
      · simp [Function.comp, hdc, List.mem_cons]

theorem to_sony_filename_eq_map (fn : Str) :
    to_sony_filename fn = fn.map sanChar := by
  rw [to_sony_filename, foldl_replaceAll_eq]
  rfl

theorem sanChar_idem (d : Char) : sanChar (sanChar d) = sanChar d := by
  by_cases h : d ∈ forbidden_chars <;> simp [sanChar, h]

theorem underscore_not_forbidden : '_' ∉ forbidden_chars := by decide

/-- C6: the filename translation is idempotent — translating twice equals
translating once — and its output contains none of the forbidden characters
(quote, angle brackets, space, comma, semicolon, colon, pipe, asterisk,
question mark). -/
theorem to_sony_filename_idempotent_and_clean (x : Str) :
    to_sony_filename (to_sony_filename x) = to_sony_filename x ∧
    ∀ c ∈ forbidden_chars, c ∉ to_sony_filename x := by
  constructor
  · rw [to_sony_filename_eq_map, to_sony_filename_eq_map, List.map_map]
    have h : sanChar ∘ sanChar = sanChar := funext sanChar_idem
    rw [h]
  · intro c hc hmem
    rw [to_sony_filename_eq_map] at hmem
    obtain ⟨d, _, hdc⟩ := List.mem_map.mp hmem
    by_cases h : d ∈ forbidden_chars
    · rw [sanChar, if_pos h] at hdc
      exact underscore_not_forbidden (hdc ▸ hc)
    · rw [sanChar, if_neg h] at hdc
      exact h (hdc ▸ hc)

/-- Witness for C6 at the concrete filename from the module's doctest. -/
theorem to_sony_filename_idempotent_and_clean_witness :
    (to_sony_filename (to_sony_filename (("A; B: C?.pdf").data))
        = to_sony_filename (("A; B: C?.pdf").data)) ∧
    (';' ∈ forbidden_chars ∧ ';' ∉ to_sony_filename (("A; B: C?.pdf").data)) :=
  ⟨(to_sony_filename_idempotent_and_clean (("A; B: C?.pdf").data)).1,
   by decide,
   (to_sony_filename_idempotent_and_clean (("A; B: C?.pdf").data)).2 ';' (by decide)⟩

/-- A tinyDB document of the sync database: the Paperpile (source) path, the
Box/Sony (mirror) path, and the last known modification time. -/
structure DBElem where
  paperpile : Str
  box : Str
  modtime : Nat
deriving DecidableEq, Repr

/-- Result of one `modified_action` call: the byte copies performed
(src, dst), the in-memory document after the call (the code assigns
`modtime` on the document dictionary before copying), and a raised
exception, if any.  The function receives no database handle, so the
persisted store cannot be touched by it. -/
structure ModResult where
  copies : List (Str × Str)
  elem : DBElem
  err : Option PyError
deriving DecidableEq, Repr

/-- Embedding of `modified_action(elem, sony, paperpile, modtime, dry_run)`.
`smod` and `pmod` are the current `st_mtime` of the sony and paperpile
files; `copy2_ok src dst` tells whether `shutil.copy2(src, dst)` succeeds.
The code first tests `smod > modtime + 10` (printing a warning, with no
behavioural effect, when the paperpile side also exceeds the slack), then
`pmod > modtime + 10`; outside dry-run it assigns the document's `modtime`
and only then copies, so a failing copy still leaves the mutated document. -/
def modified_action (elem : DBElem) (sony paperpile : Str)
    (modtime smod pmod : Nat) (dry_run : Bool)
    (copy2_ok : Str → Str → Bool) : ModResult :=
  if modtime + 10 < smod then
    if dry_run then ⟨[], elem, none⟩
    else
      if copy2_ok sony paperpile then
        ⟨[(sony, paperpile)], { elem with modtime := smod }, none⟩
      else
        ⟨[], { elem with modtime := smod }, some PyError.OSErrorCopy⟩
  else if modtime + 10 < pmod then
    if dry_run then ⟨[], elem, none⟩
    else
      if copy2_ok paperpile sony then
        ⟨[(paperpile, sony)], { elem with modtime := pmod }, none⟩
      else
        ⟨[], { elem with modtime := pmod }, some PyError.OSErrorCopy⟩
  else ⟨[], elem, none⟩

/-- Result of a whole sync pass: copies performed, the persisted store after
the pass, and the exception that aborted it, if any. -/
structure SyncResult where
  copies : List (Str × Str)
  db : List DBElem
  err : Option PyError
deriving DecidableEq, Repr

/-- The `for elem in db.all()` loop body of `sync_existing`.  An exception
raised by `modified_action` propagates, so the remaining documents are not
processed.  `stat` gives each path's current `st_mtime`. -/
def sync_go (stat : Str → Nat) (copy2_ok : Str → Str → Bool)
    (dry_run : Bool) : List DBElem → List (Str × Str) × Option PyError
  | [] => ([], none)
  | e :: rest =>
    match modified_action e e.box e.paperpile e.modtime
        (stat e.box) (stat e.paperpile) dry_run copy2_ok with
    | ⟨copies, _, some err⟩ => (copies, some err)
    | ⟨copies, _, none⟩ =>
        let rr := sync_go stat copy2_ok dry_run rest
        (copies ++ rr.1, rr.2)

/-- Embedding of `sync_existing`: iterate `modified_action` over every
stored document.  The function never inserts, updates, or writes the
database, so the persisted store is returned unchanged. -/
def sync_existing (db : List DBElem) (stat : Str → Nat)
    (copy2_ok : Str → Str → Bool) (dry_run : Bool) : SyncResult :=
  ⟨(sync_go stat copy2_ok dry_run db).1, db, (sync_go stat copy2_ok dry_run db).2⟩

/-- C7: when neither side's mtime exceeds the recorded modtime plus the
10-second slack, `modified_action` performs no copy, raises nothing, and
returns the document unchanged, and a `sync_existing` pass over that pair
copies nothing and leaves the persisted store unmodified. -/
theorem no_change_within_slack (elem : DBElem) (stat : Str → Nat)
    (copy2_ok : Str → Str → Bool) (dry_run : Bool)
    (h1 : stat elem.box ≤ elem.modtime + 10)
    (h2 : stat elem.paperpile ≤ elem.modtime + 10) :
    modified_action elem elem.box elem.paperpile elem.modtime
        (stat elem.box) (stat elem.paperpile) dry_run copy2_ok
      = ⟨[], elem, none⟩ ∧
    sync_existing [elem] stat copy2_ok dry_run = ⟨[], [elem], none⟩ := by
  have hm : modified_action elem elem.box elem.paperpile elem.modtime
      (stat elem.box) (stat elem.paperpile) dry_run copy2_ok
      = ⟨[], elem, none⟩ := by
    unfold modified_action
    rw [if_neg (by omega), if_neg (by omega)]
  refine ⟨hm, ?_⟩
  simp [sync_existing, sync_go, hm]

/-- Witness for C7: a pair last synced at time 50, both files at mtime 55. -/
theorem no_change_within_slack_witness :
    sync_existing [(⟨("p").data, ("b").data, 50⟩ : DBElem)]
        (fun _ => 55) (fun _ _ => true) false
      = ⟨[], [(⟨("p").data, ("b").data, 50⟩ : DBElem)], none⟩ :=
  (no_change_within_slack ⟨("p").data, ("b").data, 50⟩
    (fun _ => 55) (fun _ _ => true) false (by decide) (by decide)).2

/-- C1 counterexample: a pair with recorded modtime 0 whose two sides have
mtimes 20 and 20, both exceeding the 10-second slack; resolving in commit
mode nevertheless performs a copy (sony over paperpile) and changes the
document's modtime, so resolution is not a copy-free manual conflict. -/
theorem both_changed_counterexample :
    ((0 : Nat) + 10 < 20 ∧ (0 : Nat) + 10 < 20) ∧
    (modified_action ⟨("p").data, ("b").data, 0⟩ (("b").data) (("p").data)
        0 20 20 false (fun _ _ => true)).copies = [((("b").data), (("p").data))] ∧
    (modified_action ⟨("p").data, ("b").data, 0⟩ (("b").data) (("p").data)
        0 20 20 false (fun _ _ => true)).elem.modtime = 20 := by
  decide

/-- C1 (amended): when both sides exceed the slack window, the code logs a
warning and favors the sony side: in commit mode with a successful copy it
copies the sony file over the paperpile file and sets the in-memory
document modtime to the sony mtime (the persisted store is untouched, as
`modified_action` has no database handle); in dry-run mode it copies
nothing and leaves the document unchanged. -/
theorem both_changed_favors_sony (elem : DBElem) (smod pmod : Nat)
    (copy2_ok : Str → Str → Bool)
    (h1 : elem.modtime + 10 < smod) (h2 : elem.modtime + 10 < pmod)
    (hok : copy2_ok elem.box elem.paperpile = true) :
    modified_action elem elem.box elem.paperpile elem.modtime smod pmod
        false copy2_ok
      = ⟨[(elem.box, elem.paperpile)], { elem with modtime := smod }, none⟩ ∧
    modified_action elem elem.box elem.paperpile elem.modtime smod pmod
        true copy2_ok
      = ⟨[], elem, none⟩ := by
  unfold modified_action
  rw [if_pos h1, if_pos h1, hok]
  simp

/-- Witness for C1 (amended): concrete pair, both mtimes 20 against
recorded modtime 0. -/
theorem both_changed_favors_sony_witness :
    modified_action ⟨("p").data, ("b").data, 0⟩ (("b").data) (("p").data)
        0 20 20 false (fun _ _ => true)
      = ⟨[((("b").data), (("p").data))], ⟨("p").data, ("b").data, 20⟩, none⟩ :=
  (both_changed_favors_sony ⟨("p").data, ("b").data, 0⟩ 20 20
    (fun _ _ => true) (by decide) (by decide) rfl).1

/-- C2 (code behaviour at the failing input): a pair recorded at modtime 0
whose paperpile file has mtime 100.  The commit-mode sync copies paperpile
to box, but the persisted store still records modtime 0 afterwards (the
code assigns the returned document dictionary and never writes the
database).  A subsequent sync with unchanged mtimes (both 100, since copy2
preserves the modification time) therefore copies again — in the sony
direction — instead of resolving to no change. -/
theorem sync_modtime_never_persisted :
    sync_existing [⟨("p").data, ("b").data, 0⟩]
        (fun s => if s = ("p").data then 100 else 0) (fun _ _ => true) false
      = ⟨[((("p").data), (("b").data))], [⟨("p").data, ("b").data, 0⟩], none⟩ ∧
    sync_existing [⟨("p").data, ("b").data, 0⟩]
        (fun _ => 100) (fun _ _ => true) false
      = ⟨[((("b").data), (("p").data))], [⟨("p").data, ("b").data, 0⟩], none⟩ := by
  decide

/-- C8 (code behaviour at the failing input): two pairs both needing a
paperpile-to-box copy; the first copy fails.  The exception aborts the
whole `sync_existing` loop — no copies at all are performed and the second
pair is never processed, although syncing it alone would copy — and the
failing pair's in-memory document modtime was already reassigned to 100
before the copy was attempted. -/
theorem copy_failure_aborts_sync :
    sync_existing [⟨("p1").data, ("b1").data, 0⟩, ⟨("p2").data, ("b2").data, 0⟩]
        (fun s => if s = ("p1").data ∨ s = ("p2").data then 100 else 0)
        (fun src _ => !(decide (src = ("p1").data))) false
      = ⟨[], [⟨("p1").data, ("b1").data, 0⟩, ⟨("p2").data, ("b2").data, 0⟩],
          some PyError.OSErrorCopy⟩ ∧
    (modified_action ⟨("p1").data, ("b1").data, 0⟩ (("b1").data) (("p1").data)
        0 0 100 false (fun src _ => !(decide (src = ("p1").data)))).elem.modtime
      = 100 ∧
    sync_existing [⟨("p2").data, ("b2").data, 0⟩]
        (fun s => if s = ("p1").data ∨ s = ("p2").data then 100 else 0)
        (fun _ _ => true) false
      = ⟨[((("p2").data), (("b2").data))], [⟨("p2").data, ("b2").data, 0⟩], none⟩ := by
  decide

/-- Python `s.startswith(pre)`. -/
def startsWith (pre s : Str) : Bool :=
  decide (s.take pre.length = pre)

/-- Python `s.endswith(suf)`. -/
def endsWith (suf s : Str) : Bool :=
  decide (s.drop (s.length - suf.length) = suf)

/-- The home-prefix stripping idiom `if path.startswith(home):
path = path[len(home):]` used throughout the handlers. -/
def stripHome (home path : Str) : Str :=
  if startsWith home path then path.drop home.length else path

/-- Python `os.path.basename`: everything after the last slash. -/
def basename (p : Str) : Str :=
  p.foldl (fun acc c => if c = '/' then [] else acc ++ [c]) []

/-- Python `os.path.join(a, b)` for the case used in the module: a nonempty
root not ending in a slash, joined with a relative name. -/
def pathJoin (a b : Str) : Str :=
  if a = [] then b else a ++ '/' :: b

/-- The literal string used in the handlers' lowercase extension test. -/
def dot_pdf : Str := (".pdf").data

/-- The literal string used in the handlers' uppercase extension test. -/
def dot_PDF : Str := (".PDF").data

/-- Embedding of `FileModifiedHandler.on_modified`: strip the home prefix
from the event path, search the database by box path and then by paperpile
path (tinyDB search returns the matching documents as a list, concatenated
here in that order), ignore the event when nothing matched, and otherwise
run `modified_action` on the first match.  The handler never writes the
database. -/
def on_modified (db : List DBElem) (stat : Str → Nat)
    (copy2_ok : Str → Str → Bool) (dry_run : Bool)
    (home src_path : Str) : SyncResult :=
  match db.filter (fun e => decide (e.box = stripHome home src_path)) ++
        db.filter (fun e => decide (e.paperpile = stripHome home src_path)) with
  | [] => ⟨[], db, none⟩
  | e :: _ =>
      match modified_action e e.box e.paperpile e.modtime
          (stat e.box) (stat e.paperpile) dry_run copy2_ok with
      | ⟨copies, _, err⟩ => ⟨copies, db, err⟩

/-- C9: a modified event whose path (after home stripping) matches no
tracked pair under either the box or the paperpile lookup is ignored: the
handler performs no copy, raises nothing, and leaves the store unchanged. -/
theorem untracked_modified_ignored (db : List DBElem) (stat : Str → Nat)
    (copy2_ok : Str → Str → Bool) (dry_run : Bool) (home src_path : Str)
    (h : ∀ e ∈ db, ¬ e.box = stripHome home src_path ∧
         ¬ e.paperpile = stripHome home src_path) :
    on_modified db stat copy2_ok dry_run home src_path = ⟨[], db, none⟩ := by
  have h1 : db.filter (fun e => decide (e.box = stripHome home src_path)) = [] := by
    rw [List.filter_eq_nil_iff]
    intro e he
    simpa using (h e he).1
  have h2 : db.filter (fun e => decide (e.paperpile = stripHome home src_path)) = [] := by
    rw [List.filter_eq_nil_iff]
    intro e he
    simpa using (h e he).2
  unfold on_modified
  rw [h1, h2]
  rfl

/-- Witness for C9: a store holding one pair, and an event on an unrelated
path. -/
theorem untracked_modified_ignored_witness :
    on_modified [⟨("p").data, ("b").data, 0⟩] (fun _ => 0) (fun _ _ => true)
        true [] (("z").data)
      = ⟨[], [⟨("p").data, ("b").data, 0⟩], none⟩ :=
  untracked_modified_ignored [⟨("p").data, ("b").data, 0⟩] (fun _ => 0)
    (fun _ _ => true) true [] (("z").data) (by decide)

/-- Result of `MovedFileHandler.on_moved`: the renames performed on disk,
the persisted store (never written by this handler), and the exception
raised, if any. -/
structure MoveResult where
  renames : List (Str × Str)
  db : List DBElem
  err : Option PyError
deriving DecidableEq, Repr

/-- Embedding of `MovedFileHandler.on_moved`.  The guard is the code's
`if not path.endswith(lowercase pdf) or path.endswith(uppercase PDF):
return` with Python precedence.  Past the guard the handler strips the
home prefix from both paths, sanitises them, and calls `os.rename`
unconditionally — the stored `dry_run` flag is never consulted
(`rename_ok` tells whether the rename succeeds; on failure the exception
propagates).  It then searches the database by box path, obtaining a list,
and assigns `elem[box-key]` on that list, which raises `TypeError`
regardless of whether the search found anything, so the store is never
updated. -/
def on_moved (db : List DBElem) (home src_path dest_path : Str)
    (rename_ok : Str → Str → Bool) (dry_run : Bool) : MoveResult :=
  if !(endsWith dot_pdf src_path) || endsWith dot_PDF src_path then
    ⟨[], db, none⟩
  else
    if rename_ok (to_sony_filename (stripHome home src_path))
        (to_sony_filename (stripHome home dest_path)) then
      ⟨[(to_sony_filename (stripHome home src_path),
         to_sony_filename (stripHome home dest_path))], db, some PyError.TypeError⟩
    else
      ⟨[], db, some PyError.FileNotFoundError⟩

/-- C4 (code behaviour at the failing input): a move event on a tracked
extension with an empty store — no pair can be found — still renames the
file and then raises `TypeError` (the code subscripts the search-result
list with a string key) instead of logging and returning safely. -/
theorem on_moved_crashes_on_missing_pair :
    on_moved [] [] (("a.pdf").data) (("b.pdf").data) (fun _ _ => true) false
      = ⟨[((("a.pdf").data), (("b.pdf").data))], [], some PyError.TypeError⟩ := by
  decide

/-- C3 (code behaviour at the failing input): in dry-run mode (the default,
`dry_run = true`) a move event still performs a real `os.rename` of the
mirror file — `on_moved` never consults the stored dry-run flag — so the
default mode is not mutation-free. -/
theorem dry_run_move_still_renames :
    (on_moved [⟨("a.pdf").data, ("a.pdf").data, 0⟩] [] (("a.pdf").data)
        (("b.pdf").data) (fun _ _ => true) true).renames
      = [((("a.pdf").data), (("b.pdf").data))] := by
  decide

/-- Result of the single-file bootstrap path `new_paperpile_to_box` (and of
`on_created`, which calls it): the copies announced (printed), the copies
actually performed, the persisted store, and the exception raised, if
any. -/
structure BootResult where
  planned : List (Str × Str)
  copied : List (Str × Str)
  db : List DBElem
  err : Option PyError
deriving DecidableEq, Repr

/-- Embedding of `new_paperpile_to_box(path, db, dry_run, verbose)`.  The
destination is the sanitised basename joined to the box root, with the
home prefix stripped from both sides; the planned copy is printed when
verbose or dry-run.  Outside dry-run, `shutil.copy2` runs first
(`isDir p` marks the source as a directory, which raises
`IsADirectoryError`; `copy2_ok` covers other copy failures), and the
subsequent `db.insert` call evaluates `entry.stat()` on a name `entry`
that is not bound in the function, raising `NameError` — so the insert
never executes and the store is never extended. -/
def new_paperpile_to_box (path_to_file : Str) (db : List DBElem)
    (home sony_box : Str) (isDir : Str → Bool)
    (copy2_ok : Str → Str → Bool) (dry_run verbose : Bool) : BootResult :=
  if dry_run then
    ⟨if verbose || dry_run then
        [(stripHome home path_to_file,
          stripHome home (pathJoin sony_box (to_sony_filename (basename path_to_file))))]
      else [], [], db, none⟩
  else if isDir (stripHome home path_to_file) then
    ⟨if verbose || dry_run then
        [(stripHome home path_to_file,
          stripHome home (pathJoin sony_box (to_sony_filename (basename path_to_file))))]
      else [], [], db, some PyError.IsADirectoryError⟩
  else if copy2_ok (stripHome home path_to_file)
      (stripHome home (pathJoin sony_box (to_sony_filename (basename path_to_file)))) then
    ⟨if verbose || dry_run then
        [(stripHome home path_to_file,
          stripHome home (pathJoin sony_box (to_sony_filename (basename path_to_file))))]
      else [],
     [(stripHome home path_to_file,
       stripHome home (pathJoin sony_box (to_sony_filename (basename path_to_file))))],
     db, some PyError.NameError⟩
  else
    ⟨if verbose || dry_run then
        [(stripHome home path_to_file,
          stripHome home (pathJoin sony_box (to_sony_filename (basename path_to_file))))]
      else [], [], db, some PyError.OSErrorCopy⟩

/-- Embedding of `NewFileHandler.on_created`: strip the home prefix and
accept paths ending in the lowercase or the uppercase pdf extension,
passing the unstripped event path on to `new_paperpile_to_box`. -/
def on_created (db : List DBElem) (home sony_box src_path : Str)
    (isDir : Str → Bool) (copy2_ok : Str → Str → Bool)
    (dry_run verbose : Bool) : BootResult :=
  if endsWith dot_pdf (stripHome home src_path) ||
      endsWith dot_PDF (stripHome home src_path) then
    new_paperpile_to_box src_path db home sony_box isDir copy2_ok dry_run verbose
  else ⟨[], [], db, none⟩

/-- The `for entry in rscandir(paperpile_path)` loop of
`init_paperpile_to_dpt`.  The loop body ignores the entry and passes the
scan root itself to `new_paperpile_to_box`; a raised exception aborts the
remaining iterations. -/
def init_go (paperpile_path home sony_box : Str) (isDir : Str → Bool)
    (copy2_ok : Str → Str → Bool) (dry_run verbose : Bool)
    (db : List DBElem) : List Str → BootResult
  | [] => ⟨[], [], db, none⟩
  | _entry :: rest =>
    match new_paperpile_to_box paperpile_path db home sony_box
        isDir copy2_ok dry_run verbose with
    | ⟨planned, copied, db1, some err⟩ => ⟨planned, copied, db1, some err⟩
    | ⟨planned, copied, db1, none⟩ =>
        match init_go paperpile_path home sony_box isDir copy2_ok
            dry_run verbose db1 rest with
        | ⟨planned2, copied2, db2, err2⟩ =>
            ⟨planned ++ planned2, copied ++ copied2, db2, err2⟩

/-- Embedding of `init_paperpile_to_dpt`: the recursive directory listing is
an external collaborator, so the bootstrap takes the list of entry paths it
yields and runs the loop over them against the loaded store. -/
def init_paperpile_to_dpt (entries : List Str)
    (paperpile_path home sony_box : Str) (db : List DBElem)
    (isDir : Str → Bool) (copy2_ok : Str → Str → Bool)
    (dry_run verbose : Bool) : BootResult :=
  init_go paperpile_path home sony_box isDir copy2_ok dry_run verbose db entries

/-- C5 (code behaviour at the failing input): a source tree whose single
file already has its pair in the store.  Re-running the bootstrap consults
the store for no recorded-pair check: the dry-run rerun still announces a
copy for the scanned entry, and the commit rerun calls copy2 and aborts
with `IsADirectoryError` (the loop passes the scan root, a directory,
instead of the entry), so the rerun is not a benign no-op. -/
theorem bootstrap_rerun_not_idempotent :
    init_paperpile_to_dpt [(("pp/a.pdf").data)] (("pp").data) [] (("box").data)
        [⟨("pp/a.pdf").data, ("box/a.pdf").data, 5⟩]
        (fun s => decide (s = ("pp").data)) (fun _ _ => true) true true
      = ⟨[((("pp").data), (("box/pp").data))], [],
          [⟨("pp/a.pdf").data, ("box/a.pdf").data, 5⟩], none⟩ ∧
    init_paperpile_to_dpt [(("pp/a.pdf").data)] (("pp").data) [] (("box").data)
        [⟨("pp/a.pdf").data, ("box/a.pdf").data, 5⟩]
        (fun s => decide (s = ("pp").data)) (fun _ _ => true) false true
      = ⟨[((("pp").data), (("box/pp").data))], [],
          [⟨("pp/a.pdf").data, ("box/a.pdf").data, 5⟩],
          some PyError.IsADirectoryError⟩ := by
  decide

/-- C10: a move event whose source path ends in the uppercase extension is
rejected by `on_moved`'s guard before any rename or store access — the
handler returns immediately with no effect — even though `on_created`
accepts the same path (in dry-run it announces a planned copy for it). -/
theorem uppercase_pdf_move_ignored (db : List DBElem)
    (home src_path dest_path sony_box : Str)
    (rename_ok : Str → Str → Bool) (dry_run : Bool)
    (isDir : Str → Bool) (copy2_ok : Str → Str → Bool)
    (h1 : endsWith dot_PDF src_path = true)
    (h2 : endsWith dot_PDF (stripHome home src_path) = true) :
    on_moved db home src_path dest_path rename_ok dry_run = ⟨[], db, none⟩ ∧
    (on_created db home sony_box src_path isDir copy2_ok true true).planned ≠ [] := by
  constructor
  · simp [on_moved, h1]
  · simp [on_created, h2, new_paperpile_to_box]

/-- Witness for C10 at a concrete uppercase-extension move event. -/
theorem uppercase_pdf_move_ignored_witness :
    on_moved [] [] (("a.PDF").data) (("b.PDF").data) (fun _ _ => true) true
      = ⟨[], [], none⟩ ∧
    (on_created [] [] (("box").data) (("a.PDF").data) (fun _ => false)
        (fun _ _ => true) true true).planned ≠ [] :=
  uppercase_pdf_move_ignored [] [] (("a.PDF").data) (("b.PDF").data)
    (("box").data) (fun _ _ => true) true (fun _ => false) (fun _ _ => true)
    (by decide) (by decide)

end SDPP
